import Mathlib

/-!
Shallow embedding of the ibc-rs core routing (ICS-26), channel handling (ICS-04)
and the ICS-20 fungible-token-transfer application callbacks, together with
proofs about the handler code.

The embedding follows the source files:
  crates/ibc/src/core/ics26_routing/handler.rs   (dispatch)
  crates/ibc/src/core/ics04_channel/handler.rs   (channel_validate / channel_dispatch /
                                                  channel_callback / channel_events /
                                                  packet_dispatch / packet_callback)
  crates/ibc/src/core/ics04_channel/version.rs   (Version)
  crates/ibc/src/applications/transfer/context.rs (ICS-20 module callbacks,
                                                  cosmos_adr028_escrow_address)

Host-context operations that live behind the `Ics26Context` / `ChannelReader` /
`Ics20Context` traits (and the per-message `process` functions that are not part
of these files) are abstract parameters: the context is a record of operations
over an abstract state type, and the code under verification is the composition
logic of the handlers, exactly as written in the source.  Rust `&mut` receivers
become explicit state passing, fallible calls become `Except`, and a Rust panic
(`expect` / out-of-bounds indexing) becomes a distinguished outcome.
-/

namespace Ibc

/-- Channel ordering. The channel data model (`ics04_channel/channel.rs`) is not
part of the analyzed sources; modelled from the spec data model:
`ordering ∈ {Ordered, Unordered}`. -/
inductive Order where
  | Unordered
  | Ordered
deriving DecidableEq, Repr

abbrev PortId := String

abbrev ChannelId := String

abbrev ConnectionId := String

abbrev ModuleId := String

/-- The version field of a channel end (`ics04_channel/version.rs`):
a newtype over an opaque string. -/
structure Version where
  val : String
deriving DecidableEq, Repr

/-- `Version::new` -/
def Version.new (v : String) : Version := ⟨v⟩

/-- ICS-20 channel version constant `applications::transfer::VERSION`. -/
def VERSION : String := "ics20-1"

/-- `Version::ics20()` -/
def Version.ics20 : Version := Version.new VERSION

/-- `Version::is_empty` -/
def Version.isEmpty (v : Version) : Bool := v.val.isEmpty

/-- Channel states (spec data model; `channel.rs` is outside the analyzed files). -/
inductive ChannelState where
  | Uninitialized
  | Init
  | TryOpen
  | Open
  | Closed
deriving DecidableEq, Repr

/-- Channel counterparty: a port id and an optional channel id. -/
structure Counterparty where
  port_id : PortId
  channel_id : Option ChannelId
deriving DecidableEq, Repr

/-- One side of a channel (spec data model). The field `remote` with accessor
`counterparty` follows the source's `channel_end.counterparty()` calls. -/
structure ChannelEnd where
  state : ChannelState
  ordering : Order
  remote : Counterparty
  connection_hops : List ConnectionId
  version : Version
deriving DecidableEq, Repr

/-- `ChannelEnd::counterparty()` -/
def ChannelEnd.counterparty (c : ChannelEnd) : Counterparty := c.remote

/-- `MsgChannelOpenInit`: the fields read by the handlers in the analyzed files. -/
structure MsgChannelOpenInit where
  port_id : PortId
  channel : ChannelEnd
deriving DecidableEq, Repr

/-- `MsgChannelOpenTry` (fields read by the handlers). -/
structure MsgChannelOpenTry where
  port_id : PortId
  channel : ChannelEnd
  counterparty_version : Version
deriving DecidableEq, Repr

/-- `MsgChannelOpenAck` (fields read by the handlers). -/
structure MsgChannelOpenAck where
  port_id : PortId
  channel_id : ChannelId
  counterparty_channel_id : ChannelId
  counterparty_version : Version
deriving DecidableEq, Repr

/-- `MsgChannelOpenConfirm` (fields read by the handlers). -/
structure MsgChannelOpenConfirm where
  port_id : PortId
  channel_id : ChannelId
deriving DecidableEq, Repr

/-- `MsgChannelCloseInit` (fields read by the handlers). -/
structure MsgChannelCloseInit where
  port_id : PortId
  channel_id : ChannelId
deriving DecidableEq, Repr

/-- `MsgChannelCloseConfirm` (fields read by the handlers). -/
structure MsgChannelCloseConfirm where
  port_id : PortId
  channel_id : ChannelId
deriving DecidableEq, Repr

/-- `ChannelMsg`: the six channel handshake messages. -/
inductive ChannelMsg where
  | channelOpenInit (m : MsgChannelOpenInit)
  | channelOpenTry (m : MsgChannelOpenTry)
  | channelOpenAck (m : MsgChannelOpenAck)
  | channelOpenConfirm (m : MsgChannelOpenConfirm)
  | channelCloseInit (m : MsgChannelCloseInit)
  | channelCloseConfirm (m : MsgChannelCloseConfirm)
deriving DecidableEq, Repr

/-- Whether a channel message is a `ChannelOpenInit`. -/
def ChannelMsg.isOpenInit : ChannelMsg → Bool
  | .channelOpenInit _ => true
  | _ => false

/-- `ChannelIdState` (`ics04_channel/handler.rs`). -/
inductive ChannelIdState where
  | Generated
  | Reused
deriving DecidableEq, Repr

/-- `ChannelResult` (`ics04_channel/handler.rs`). -/
structure ChannelResult where
  port_id : PortId
  channel_id : ChannelId
  channel_id_state : ChannelIdState
  channel_end : ChannelEnd
deriving DecidableEq, Repr

/-- Application-module events. The concrete event payloads live outside the
analyzed files; the ICS-20 `RecvEvent` fields follow `transfer/context.rs`. -/
inductive ModuleEvent where
  | recvEvent (receiver denom : String) (amount : Nat) (success : Bool)
  | appEvent (tag : String)
deriving DecidableEq, Repr

/-- `ModuleExtras` (`ics04_channel/handler.rs`). -/
structure ModuleExtras where
  events : List ModuleEvent
  log : List String
deriving DecidableEq, Repr

/-- `ModuleExtras::empty()` -/
def ModuleExtras.empty : ModuleExtras := ⟨[], []⟩

/-- Payload of an `OpenInitChannel` event (`OpenInit::new` call in `channel_events`). -/
structure OpenInitEv where
  port_id : PortId
  channel_id : ChannelId
  counterparty_port_id : PortId
  connection_id : ConnectionId
  version : Version
deriving DecidableEq, Repr

/-- Payload of an `OpenTryChannel` event (`OpenTry::new` call in `channel_events`). -/
structure OpenTryEv where
  port_id : PortId
  channel_id : ChannelId
  counterparty_port_id : PortId
  counterparty_channel_id : ChannelId
  connection_id : ConnectionId
  version : Version
deriving DecidableEq, Repr

/-- Payload shared by the `OpenAck`/`OpenConfirm`/`CloseInit`/`CloseConfirm`
channel events constructed in `channel_events`. -/
structure HandshakeEv where
  port_id : PortId
  channel_id : ChannelId
  counterparty_port_id : PortId
  counterparty_channel_id : ChannelId
  connection_id : ConnectionId
deriving DecidableEq, Repr

/-- The IBC events produced by the analyzed handlers. -/
inductive IbcEvent where
  | openInitChannel (e : OpenInitEv)
  | openTryChannel (e : OpenTryEv)
  | openAckChannel (e : HandshakeEv)
  | openConfirmChannel (e : HandshakeEv)
  | closeInitChannel (e : HandshakeEv)
  | closeConfirmChannel (e : HandshakeEv)
  | appModule (e : ModuleEvent)
deriving DecidableEq, Repr

/-- `channel_events` (`ics04_channel/handler.rs`, lines 159-223).  The source
unwraps `counterparty.channel_id` with `.expect(..)` in every arm except
`ChannelOpenInit`; that panic is modelled as `none`. -/
def channel_events (msg : ChannelMsg) (channel_id : ChannelId)
    (counterparty : Counterparty) (connection_id : ConnectionId)
    (version : Version) : Option (List IbcEvent) :=
  match msg with
  | .channelOpenInit m =>
      some [IbcEvent.openInitChannel
        ⟨m.port_id, channel_id, counterparty.port_id, connection_id, version⟩]
  | .channelOpenTry m =>
      match counterparty.channel_id with
      | none => none
      | some cpChan =>
          some [IbcEvent.openTryChannel
            ⟨m.port_id, channel_id, counterparty.port_id, cpChan, connection_id, version⟩]
  | .channelOpenAck m =>
      match counterparty.channel_id with
      | none => none
      | some cpChan =>
          some [IbcEvent.openAckChannel
            ⟨m.port_id, channel_id, counterparty.port_id, cpChan, connection_id⟩]
  | .channelOpenConfirm m =>
      match counterparty.channel_id with
      | none => none
      | some cpChan =>
          some [IbcEvent.openConfirmChannel
            ⟨m.port_id, channel_id, counterparty.port_id, cpChan, connection_id⟩]
  | .channelCloseInit m =>
      match counterparty.channel_id with
      | none => none
      | some cpChan =>
          some [IbcEvent.closeInitChannel
            ⟨m.port_id, channel_id, counterparty.port_id, cpChan, connection_id⟩]
  | .channelCloseConfirm m =>
      match counterparty.channel_id with
      | none => none
      | some cpChan =>
          some [IbcEvent.closeConfirmChannel
            ⟨m.port_id, channel_id, counterparty.port_id, cpChan, connection_id⟩]

/-- ICS-04 channel errors surfaced by the analyzed handler code.  The error
constructors that live in `ics04_channel/error.rs` (outside the analyzed files)
are collapsed into `chanError` with a tag. -/
inductive ChanError where
  | routeNotFound
  | ics05Port (e : String)
  | appModule (e : String)
  | chanError (tag : String)
deriving DecidableEq, Repr

/-- ICS-26 routing error (`ics26_routing/error.rs`): a per-standard wrapper.
Client and connection sub-errors are outside the analyzed files and are
abstracted as strings. -/
inductive Error where
  | ics02Client (e : String)
  | ics03Connection (e : String)
  | ics04Channel (e : ChanError)
deriving DecidableEq, Repr

end Ibc

namespace Ibc.Transfer

/-- ICS-20 application errors raised by the callbacks in `transfer/context.rs`. -/
inductive Ics20Error where
  | channelNotUnordered (order : Order)
  | invalidPort (port_id : PortId) (bound : PortId)
  | invalidVersion (v : Version)
  | invalidCounterpartyVersion (v : Version)
  | cantCloseChannel
  | packetDataDeserialization
deriving DecidableEq, Repr

/-- The slice of `Ics20Context` that the analyzed handshake callbacks consume:
`Ics20Reader::get_port`. -/
structure Ics20Ctx where
  getPort : Except Ics20Error PortId

/-- ICS-20 `on_chan_open_init` (`transfer/context.rs`, lines 104-126). -/
def on_chan_open_init (ctx : Ics20Ctx) (order : Order)
    (_connection_hops : List ConnectionId) (port_id : PortId)
    (_channel_id : ChannelId) (_counterparty : Counterparty)
    (version : Version) : Except Ics20Error (ModuleExtras × Version) :=
  if order ≠ Order.Unordered then
    .error (.channelNotUnordered order)
  else
    match ctx.getPort with
    | .error e => .error e
    | .ok bound_port =>
      if port_id ≠ bound_port then
        .error (.invalidPort port_id bound_port)
      else if version.isEmpty = false ∧ version ≠ Version.ics20 then
        .error (.invalidVersion version)
      else
        .ok (ModuleExtras.empty, Version.ics20)

/-- ICS-20 `on_chan_open_try` (`transfer/context.rs`, lines 129-148). -/
def on_chan_open_try (_ctx : Ics20Ctx) (order : Order)
    (_connection_hops : List ConnectionId) (_port_id : PortId)
    (_channel_id : ChannelId) (_counterparty : Counterparty)
    (counterparty_version : Version) : Except Ics20Error (ModuleExtras × Version) :=
  if order ≠ Order.Unordered then
    .error (.channelNotUnordered order)
  else if counterparty_version ≠ Version.ics20 then
    .error (.invalidCounterpartyVersion counterparty_version)
  else
    .ok (ModuleExtras.empty, Version.ics20)

/-- ICS-20 `on_chan_open_ack` (`transfer/context.rs`, lines 150-163). -/
def on_chan_open_ack (_ctx : Ics20Ctx) (_port_id : PortId) (_channel_id : ChannelId)
    (counterparty_version : Version) : Except Ics20Error ModuleExtras :=
  if counterparty_version ≠ Version.ics20 then
    .error (.invalidCounterpartyVersion counterparty_version)
  else
    .ok ModuleExtras.empty

/-- ICS-20 `on_chan_open_confirm` (`transfer/context.rs`, lines 165-171). -/
def on_chan_open_confirm (_ctx : Ics20Ctx) (_port_id : PortId)
    (_channel_id : ChannelId) : Except Ics20Error ModuleExtras :=
  .ok ModuleExtras.empty

/-- ICS-20 `on_chan_close_init` (`transfer/context.rs`, lines 173-179). -/
def on_chan_close_init (_ctx : Ics20Ctx) (_port_id : PortId)
    (_channel_id : ChannelId) : Except Ics20Error ModuleExtras :=
  .error .cantCloseChannel

/-- ICS-20 `on_chan_close_confirm` (`transfer/context.rs`, lines 181-187). -/
def on_chan_close_confirm (_ctx : Ics20Ctx) (_port_id : PortId)
    (_channel_id : ChannelId) : Except Ics20Error ModuleExtras :=
  .ok ModuleExtras.empty

end Ibc.Transfer

namespace Ibc

/-- Whether an `Except` value is an error. -/
def isError {ε α : Type} : Except ε α → Bool
  | .error _ => true
  | .ok _ => false

/-- The channel-handshake slice of the `Module` trait
(`ics26_routing/context.rs`, outside the analyzed files; the shape of each hook
is fixed by the calls in `channel_callback`).  The Rust `&mut self` receiver is
explicit state passing over `σ`; each hook returns a typed ICS-04 error on
failure. -/
structure Module (σ : Type) where
  onChanOpenInit : σ → Order → List ConnectionId → PortId → ChannelId → Counterparty →
    Version → Except ChanError (σ × ModuleExtras × Version)
  onChanOpenTry : σ → Order → List ConnectionId → PortId → ChannelId → Counterparty →
    Version → Except ChanError (σ × ModuleExtras × Version)
  onChanOpenAck : σ → PortId → ChannelId → Version → Except ChanError (σ × ModuleExtras)
  onChanOpenConfirm : σ → PortId → ChannelId → Except ChanError (σ × ModuleExtras)
  onChanCloseInit : σ → PortId → ChannelId → Except ChanError (σ × ModuleExtras)
  onChanCloseConfirm : σ → PortId → ChannelId → Except ChanError (σ × ModuleExtras)

/-- `channel_callback` (`ics04_channel/handler.rs`, lines 102-156).  The
router's `get_route_mut` is the `router` argument; for `ChannelOpenInit` and
`ChannelOpenTry` the hook's returned version overwrites
`result.channel_end.version`, exactly as in the source. -/
def channel_callback {σ : Type} (router : ModuleId → Option (Module σ)) (s : σ)
    (module_id : ModuleId) (msg : ChannelMsg) (result : ChannelResult) :
    Except ChanError (σ × ModuleExtras × ChannelResult) :=
  match router module_id with
  | none => .error .routeNotFound
  | some cb =>
    match msg with
    | .channelOpenInit m =>
      match cb.onChanOpenInit s m.channel.ordering m.channel.connection_hops m.port_id
          result.channel_id m.channel.counterparty m.channel.version with
      | .error e => .error e
      | .ok (s, extras, version) =>
        .ok (s, extras,
          { result with channel_end := { result.channel_end with version := version } })
    | .channelOpenTry m =>
      match cb.onChanOpenTry s m.channel.ordering m.channel.connection_hops m.port_id
          result.channel_id m.channel.counterparty m.counterparty_version with
      | .error e => .error e
      | .ok (s, extras, version) =>
        .ok (s, extras,
          { result with channel_end := { result.channel_end with version := version } })
    | .channelOpenAck m =>
      match cb.onChanOpenAck s m.port_id result.channel_id m.counterparty_version with
      | .error e => .error e
      | .ok (s, extras) => .ok (s, extras, result)
    | .channelOpenConfirm m =>
      match cb.onChanOpenConfirm s m.port_id result.channel_id with
      | .error e => .error e
      | .ok (s, extras) => .ok (s, extras, result)
    | .channelCloseInit m =>
      match cb.onChanCloseInit s m.port_id result.channel_id with
      | .error e => .error e
      | .ok (s, extras) => .ok (s, extras, result)
    | .channelCloseConfirm m =>
      match cb.onChanCloseConfirm s m.port_id result.channel_id with
      | .error e => .error e
      | .ok (s, extras) => .ok (s, extras, result)

/-- Packet (spec data model; `packet.rs` is outside the analyzed files).
Bytes are modelled as `List Nat`. -/
structure Packet where
  sequence : Nat
  source_port : PortId
  source_channel : ChannelId
  destination_port : PortId
  destination_channel : ChannelId
  data : List Nat
  timeout_height : Option (Nat × Nat)
  timeout_timestamp : Nat
deriving DecidableEq, Repr

/-- `MsgRecvPacket` (fields read by the analyzed handlers). -/
structure MsgRecvPacket where
  packet : Packet
  signer : String
deriving DecidableEq, Repr

/-- `MsgAcknowledgement` (fields read by the analyzed handlers). -/
structure MsgAcknowledgement where
  packet : Packet
  acknowledgement : List Nat
  signer : String
deriving DecidableEq, Repr

/-- `MsgTimeout` (fields read by the analyzed handlers). -/
structure MsgTimeout where
  packet : Packet
  signer : String
deriving DecidableEq, Repr

/-- `MsgTimeoutOnClose` (fields read by the analyzed handlers). -/
structure MsgTimeoutOnClose where
  packet : Packet
  signer : String
deriving DecidableEq, Repr

/-- `PacketMsg`: the four packet-lifecycle messages. -/
inductive PacketMsg where
  | recvPacket (m : MsgRecvPacket)
  | ackPacket (m : MsgAcknowledgement)
  | timeoutPacket (m : MsgTimeout)
  | timeoutOnClosePacket (m : MsgTimeoutOnClose)
deriving DecidableEq, Repr

/-- `RecvPacketResult` (spec data model: `Recv = NoOp | WriteAck`;
`recv_packet.rs` is outside the analyzed files). -/
inductive RecvPacketResult where
  | noOp
  | writeAck (ack_commitment : List Nat)
deriving DecidableEq, Repr

/-- `PacketResult` (spec data model; the `NoOp` test in `dispatch` is the only
use inside the analyzed files). -/
inductive PacketResult where
  | send (sequence : Nat) (commitment : List Nat)
  | recv (r : RecvPacketResult)
  | ack (sequence_cleared : Nat)
  | timeout (sequence_cleared : Nat)
deriving DecidableEq, Repr

/-- `HandlerOutputBuilder` as consumed by the analyzed code: append-only log
and event accumulators (`crate::handler` is outside the analyzed files; the
builder operations used are `with_log` / `with_events` / `with_result`). -/
structure HandlerOutputBuilder where
  log : List String
  events : List IbcEvent
deriving DecidableEq, Repr

/-- A fresh, empty builder. -/
def HandlerOutputBuilder.new : HandlerOutputBuilder := ⟨[], []⟩

/-- `with_log`: append log lines. -/
def HandlerOutputBuilder.withLog (b : HandlerOutputBuilder) (l : List String) :
    HandlerOutputBuilder := ⟨b.log ++ l, b.events⟩

/-- `with_events`: append events. -/
def HandlerOutputBuilder.withEvents (b : HandlerOutputBuilder) (es : List IbcEvent) :
    HandlerOutputBuilder := ⟨b.log, b.events ++ es⟩

/-- `Ics26Envelope` (`ics26_routing/msgs.rs`).  Client and connection payloads
are outside the analyzed files and abstracted as type parameters. -/
inductive Ics26Envelope (CM CN : Type) where
  | ics2Msg (m : CM)
  | ics3Msg (m : CN)
  | ics4ChannelMsg (m : ChannelMsg)
  | ics4PacketMsg (m : PacketMsg)

/-- The operations `dispatch` (`ics26_routing/handler.rs`) invokes on its
context, as a record over an abstract host-state `σ`.  Operations taking the
Rust context by `&` do not return a new state; operations taking `&mut` do.
`CM`/`CN` are the client/connection message types and `CR`/`NR` their handler
result types (all outside the analyzed files). -/
structure Ics26Ctx (σ CM CN CR NR : Type) where
  clientMsgDispatcher : σ → CM → Except String (σ × List String × List IbcEvent × CR)
  storeClientResult : σ → CR → Except String σ
  connMsgDispatcher : σ → CN → Except String (σ × List String × List IbcEvent × NR)
  storeConnectionResult : σ → NR → Except String σ
  channelValidate : σ → ChannelMsg → Except ChanError ModuleId
  channelDispatch : σ → ChannelMsg → Except ChanError (List String × ChannelResult)
  channelCallback : σ → ModuleId → ChannelMsg → ChannelResult →
    Except ChanError (σ × ModuleExtras × ChannelResult)
  storeChannelResult : σ → ChannelResult → Except ChanError σ
  getModuleForPacketMsg : σ → PacketMsg → Except ChanError ModuleId
  packetDispatch : σ → PacketMsg → Except ChanError (HandlerOutputBuilder × PacketResult)
  packetCallback : σ → ModuleId → PacketMsg → HandlerOutputBuilder →
    Except ChanError (σ × HandlerOutputBuilder)
  storePacketResult : σ → PacketResult → Except ChanError σ

/-- Outcome of `dispatch`: success with the final state and accumulated output,
a typed routing error, or a Rust panic (from `expect` / indexing). -/
inductive DispatchResult (σ : Type) where
  | ok (s : σ) (out : HandlerOutputBuilder)
  | error (e : Error)
  | panic (msg : String)

/-- `dispatch` (`ics26_routing/handler.rs`, lines 56-151), arm for arm.  The
`Ics4ChannelMsg` arm reads `channel_result.channel_end.connection_hops[0]`
(panic when empty) and calls `channel_events`, whose `.expect` is the second
panic source.  The `Ics4PacketMsg` arm short-circuits on
`PacketResult::Recv(RecvPacketResult::NoOp)`. -/
def dispatch {σ CM CN CR NR : Type} (C : Ics26Ctx σ CM CN CR NR) (s : σ)
    (msg : Ics26Envelope CM CN) : DispatchResult σ :=
  match msg with
  | .ics2Msg m =>
    match C.clientMsgDispatcher s m with
    | .error e => .error (.ics02Client e)
    | .ok (s, log, events, result) =>
      match C.storeClientResult s result with
      | .error e => .error (.ics02Client e)
      | .ok s => .ok s ((HandlerOutputBuilder.new.withLog log).withEvents events)
  | .ics3Msg m =>
    match C.connMsgDispatcher s m with
    | .error e => .error (.ics03Connection e)
    | .ok (s, log, events, result) =>
      match C.storeConnectionResult s result with
      | .error e => .error (.ics03Connection e)
      | .ok s => .ok s ((HandlerOutputBuilder.new.withLog log).withEvents events)
  | .ics4ChannelMsg m =>
    match C.channelValidate s m with
    | .error e => .error (.ics04Channel e)
    | .ok module_id =>
      match C.channelDispatch s m with
      | .error e => .error (.ics04Channel e)
      | .ok (dispatch_log, channel_result) =>
        match C.channelCallback s module_id m channel_result with
        | .error e => .error (.ics04Channel e)
        | .ok (s, callback_extras, channel_result) =>
          match channel_result.channel_end.connection_hops with
          | [] => .panic "index out of bounds: connection_hops"
          | connection_id :: _ =>
            match channel_events m channel_result.channel_id
                channel_result.channel_end.counterparty connection_id
                channel_result.channel_end.version with
            | none => .panic "counterparty channel id must exist"
            | some dispatch_events =>
              match C.storeChannelResult s channel_result with
              | .error e => .error (.ics04Channel e)
              | .ok s =>
                .ok s ((((HandlerOutputBuilder.new.withEvents dispatch_events).withEvents
                  (callback_extras.events.map IbcEvent.appModule)).withLog
                    dispatch_log).withLog callback_extras.log)
  | .ics4PacketMsg m =>
    match C.getModuleForPacketMsg s m with
    | .error e => .error (.ics04Channel e)
    | .ok module_id =>
      match C.packetDispatch s m with
      | .error e => .error (.ics04Channel e)
      | .ok (handler_builder, packet_result) =>
        match packet_result with
        | .recv .noOp => .ok s handler_builder
        | _ =>
          match C.packetCallback s module_id m handler_builder with
          | .error e => .error (.ics04Channel e)
          | .ok (s, handler_builder) =>
            match C.storePacketResult s packet_result with
            | .error e => .error (.ics04Channel e)
            | .ok s => .ok s handler_builder

/-- UTF-8 bytes of a string; the identifiers and version strings involved are
ASCII, where code points and UTF-8 bytes coincide. -/
def strBytes (s : String) : List Nat := s.data.map Char.toNat

end Ibc

namespace Ibc.Transfer

/-- ICS-20 `PacketData` (spec wire schema: denom, amount, sender, receiver;
`transfer/packet.rs` is outside the analyzed files). -/
structure PacketData where
  denom : String
  amount : Nat
  sender : String
  receiver : String
deriving DecidableEq, Repr

/-- Display strings of ICS-20 errors. Modelled from the spec: the `Display`
rendering lives in `transfer/error.rs`, outside the analyzed files; only its
injectivity per constructor matters here. -/
def ics20ErrorMessage : Ics20Error → String
  | .channelNotUnordered _ => "expected unordered channel"
  | .invalidPort p b => "invalid port: " ++ p ++ ", expected " ++ b
  | .invalidVersion v => "invalid version: " ++ v.val
  | .invalidCounterpartyVersion v => "invalid counterparty version: " ++ v.val
  | .cantCloseChannel => "channel cannot be closed"
  | .packetDataDeserialization => "failed to deserialize packet data"

/-- ICS-20 acknowledgement (spec wire schema: a result or an error string;
`transfer/acknowledgement.rs` is outside the analyzed files). -/
inductive Ics20Ack where
  | result (res : String)
  | error (err : String)
deriving DecidableEq, Repr

/-- `Acknowledgement::success()`: the success result is the base64 encoding of
the byte `0x01` (spec wire schema). -/
def Ics20Ack.success : Ics20Ack := .result "AQ=="

/-- `Acknowledgement::from_error`. -/
def Ics20Ack.fromError (e : Ics20Error) : Ics20Ack := .error (ics20ErrorMessage e)

/-- JSON bytes of an ICS-20 acknowledgement. Modelled from the spec wire
schema; only used as the opaque byte payload handed to the core. -/
def Ics20Ack.toBytes : Ics20Ack → List Nat
  | .result r => strBytes ("\x7b\"result\":\"" ++ r ++ "\"\x7d")
  | .error e => strBytes ("\x7b\"error\":\"" ++ e ++ "\"\x7d")

end Ibc.Transfer

namespace Ibc

/-- `OnRecvPacketAck` (`ics26_routing/context.rs`, shape fixed by the uses in
`do_packet_callback` and `transfer/context.rs`).  The deferred `write_fn`
closure becomes a state transformer over the module state `σ`; its untyped
application error is a string, wrapped by the router via `Error::app_module`. -/
inductive OnRecvPacketAck (σ : Type) where
  | nil (writeFn : σ → Except String σ)
  | successful (ack : Transfer.Ics20Ack) (writeFn : σ → Except String σ)
  | failed (ack : Transfer.Ics20Ack)

/-- `OnRecvPacketAck::is_successful`. -/
def OnRecvPacketAck.isSuccessful {σ : Type} : OnRecvPacketAck σ → Bool
  | .successful _ _ => true
  | _ => false

end Ibc

namespace Ibc.Transfer

/-- ICS-20 `on_recv_packet` (`transfer/context.rs`, lines 189-218).  The two
external dependencies — `serde_json::from_slice::<PacketData>` and
`process_recv_packet` — are parameters.  The function is total toward the
router: it always returns an `OnRecvPacketAck` plus the events emitted into the
module output (the `RecvEvent` is emitted only after deserialization
succeeds). -/
def on_recv_packet {σ : Type} (deser : List Nat → Option PacketData)
    (process_recv_packet : PacketData → Except Ics20Error (σ → Except String σ))
    (packet : Packet) : OnRecvPacketAck σ × List ModuleEvent :=
  match deser packet.data with
  | none =>
    (OnRecvPacketAck.failed
      (Ics20Ack.error (ics20ErrorMessage Ics20Error.packetDataDeserialization)), [])
  | some data =>
    let ack : OnRecvPacketAck σ :=
      match process_recv_packet data with
      | .ok write_fn => .successful Ics20Ack.success write_fn
      | .error e => .failed (Ics20Ack.fromError e)
    (ack, [ModuleEvent.recvEvent data.receiver data.denom data.amount ack.isSuccessful])

end Ibc.Transfer

namespace Ibc

/-- The context operations consumed by `process_write_ack`
(`ics04_channel/handler.rs`, lines 337-360): `write_acknowledgement::process`
(outside the analyzed files) and `store_packet_result`. -/
structure PacketCbCtx (σ : Type) where
  writeAcknowledgementProcess : σ → Packet → List Nat →
    Except ChanError (PacketResult × List String × List IbcEvent)
  storePacketResult : σ → PacketResult → Except ChanError σ

/-- `process_write_ack` (`ics04_channel/handler.rs`, lines 337-360): run
`write_acknowledgement::process`, store its packet result, and merge its log
and events into the core output. -/
def process_write_ack {σ : Type} (C : PacketCbCtx σ) (s : σ) (packet : Packet)
    (ackBytes : List Nat) (core_output : HandlerOutputBuilder) :
    Except ChanError (σ × HandlerOutputBuilder) :=
  match C.writeAcknowledgementProcess s packet ackBytes with
  | .error e => .error e
  | .ok (result, log, events) =>
    match C.storePacketResult s result with
    | .error e => .error e
    | .ok s => .ok (s, (core_output.withLog log).withEvents events)

/-- The `RecvPacket` arm of `do_packet_callback`
(`ics04_channel/handler.rs`, lines 305-321), applied to the module's already
computed `OnRecvPacketAck`: `Nil` runs the deferred write only; `Successful`
runs it and then writes the acknowledgement; `Failed` writes the
acknowledgement without touching module state.  A `write_fn` failure is wrapped
via `Error::app_module`. -/
def do_packet_callback_recv {σ : Type} (C : PacketCbCtx σ) (s : σ) (packet : Packet)
    (ackResult : OnRecvPacketAck σ) (core_output : HandlerOutputBuilder) :
    Except ChanError (σ × HandlerOutputBuilder) :=
  match ackResult with
  | .nil write_fn =>
    match write_fn s with
    | .error e => .error (.appModule e)
    | .ok s => .ok (s, core_output)
  | .successful ack write_fn =>
    match write_fn s with
    | .error e => .error (.appModule e)
    | .ok s => process_write_ack C s packet ack.toBytes core_output
  | .failed ack => process_write_ack C s packet ack.toBytes core_output

end Ibc

namespace Ibc.Sha256

/-- Reduce to a 32-bit word. -/
def wmask (x : Nat) : Nat := x % 4294967296

/-- 32-bit right rotation (inputs below 2^32). -/
def rotr (n x : Nat) : Nat := wmask ((x >>> n) ||| (x <<< (32 - n)))

/-- SHA-256 Σ0. -/
def bsig0 (x : Nat) : Nat := (rotr 2 x) ^^^ (rotr 13 x) ^^^ (rotr 22 x)

/-- SHA-256 Σ1. -/
def bsig1 (x : Nat) : Nat := (rotr 6 x) ^^^ (rotr 11 x) ^^^ (rotr 25 x)

/-- SHA-256 σ0. -/
def ssig0 (x : Nat) : Nat := (rotr 7 x) ^^^ (rotr 18 x) ^^^ (x >>> 3)

/-- SHA-256 σ1. -/
def ssig1 (x : Nat) : Nat := (rotr 17 x) ^^^ (rotr 19 x) ^^^ (x >>> 10)

/-- The 64 SHA-256 round constants (FIPS 180-4, written in decimal). -/
def K : List Nat :=
  [1116352408, 1899447441, 3049323471, 3921009573, 961987163,
   1508970993, 2453635748, 2870763221, 3624381080, 310598401,
   607225278, 1426881987, 1925078388, 2162078206, 2614888103,
   3248222580, 3835390401, 4022224774, 264347078, 604807628,
   770255983, 1249150122, 1555081692, 1996064986, 2554220882,
   2821834349, 2952996808, 3210313671, 3336571891, 3584528711,
   113926993, 338241895, 666307205, 773529912, 1294757372,
   1396182291, 1695183700, 1986661051, 2177026350, 2456956037,
   2730485921, 2820302411, 3259730800, 3345764771, 3516065817,
   3600352804, 4094571909, 275423344, 430227734, 506948616,
   659060556, 883997877, 958139571, 1322822218, 1537002063,
   1747873779, 1955562222, 2024104815, 2227730452, 2361852424,
   2428436474, 2756734187, 3204031479, 3329325298]

/-- The SHA-256 initial hash value (FIPS 180-4, written in decimal). -/
def H0 : List Nat :=
  [1779033703, 3144134277, 1013904242, 2773480762,
   1359893119, 2600822924, 528734635, 1541459225]

/-- Big-endian bytes of a value, `n` bytes wide. -/
def beBytes (n v : Nat) : List Nat :=
  (List.range n).map (fun i => (v >>> (8 * (n - 1 - i))) &&& 255)

/-- SHA-256 padding: append `0x80`, zeros to 56 mod 64, then the bit length as
8 big-endian bytes. -/
def pad (msg : List Nat) : List Nat :=
  let len := msg.length
  let k := (119 - len % 64) % 64
  msg ++ 128 :: List.replicate k 0 ++ beBytes 8 (len * 8)

/-- Combine bytes into big-endian 32-bit words. -/
def toWords (bs : List Nat) : List Nat :=
  (List.range (bs.length / 4)).map (fun i =>
    (bs.getD (4 * i) 0 <<< 24) ||| (bs.getD (4 * i + 1) 0 <<< 16) |||
    (bs.getD (4 * i + 2) 0 <<< 8) ||| bs.getD (4 * i + 3) 0)

/-- Extend a 16-word block to the 64-word message schedule. -/
def schedule (w : List Nat) : List Nat :=
  (List.range 48).foldl (fun ws _ =>
    ws ++ [wmask (ssig1 (ws.getD (ws.length - 2) 0) + ws.getD (ws.length - 7) 0 +
      ssig0 (ws.getD (ws.length - 15) 0) + ws.getD (ws.length - 16) 0)]) w

/-- One SHA-256 compression step over the 8-word state. -/
def round (st : List Nat) (kw : Nat × Nat) : List Nat :=
  match st with
  | [a, b, c, d, e, f, g, h] =>
    let ch := (e &&& f) ^^^ ((e ^^^ 0xffffffff) &&& g)
    let maj := (a &&& b) ^^^ (a &&& c) ^^^ (b &&& c)
    let t1 := wmask (h + bsig1 e + ch + kw.1 + kw.2)
    let t2 := wmask (bsig0 a + maj)
    [wmask (t1 + t2), a, b, c, wmask (d + t1), e, f, g]
  | _ => st

/-- Compress one 64-byte block into the running hash. -/
def compress (h : List Nat) (block : List Nat) : List Nat :=
  let st := ((K.zip (schedule (toWords block)))).foldl round h
  (h.zip st).map (fun p => wmask (p.1 + p.2))

/-- SHA-256 digest of a byte sequence. -/
def sha256 (msg : List Nat) : List Nat :=
  let padded := pad msg
  let final := ((List.range (padded.length / 64)).map
    (fun i => (padded.drop (64 * i)).take 64)).foldl compress H0
  final.foldl (fun acc w => acc ++ beBytes 4 w) []

/-- The streaming hasher interface of the `sha2` crate as consumed by
`cosmos_adr028_escrow_address`: `update` accumulates bytes, `finalize` hashes
the accumulated buffer. -/
structure Hasher where
  buffer : List Nat
deriving DecidableEq, Repr

/-- `Sha256::new()` -/
def Hasher.new : Hasher := ⟨[]⟩

/-- `Hasher::update` -/
def Hasher.update (h : Hasher) (bs : List Nat) : Hasher := ⟨h.buffer ++ bs⟩

/-- `Hasher::finalize` -/
def Hasher.finalize (h : Hasher) : List Nat := sha256 h.buffer

end Ibc.Sha256

namespace Ibc.Bech32

/-- The bech32 data character set.  Bech32 encoding is performed by the
`subtle_encoding` crate in the source; modelled from the spec
("bech32(\"cosmos\", ...)"), following the standard (BIP-173) algorithm. -/
def charset : List Char := "qpzry9x8gf2tvdw0s3jn54khce6mua7l".data

/-- The bech32 checksum generator constants. -/
def gen : List Nat := [0x3b6a57b2, 0x26508e6d, 0x1ea119fa, 0x3d4233dd, 0x2a1462b3]

/-- The bech32 polymod checksum accumulator. -/
def polymod (values : List Nat) : Nat :=
  values.foldl (fun chk v =>
    let top := chk >>> 25
    let chk := ((chk &&& 0x1ffffff) <<< 5) ^^^ v
    (List.range 5).foldl (fun chk i =>
      if (top >>> i) &&& 1 = 1 then chk ^^^ gen.getD i 0 else chk) chk) 1

/-- Expand the human-readable part for checksum computation. -/
def hrpExpand (hrp : String) : List Nat :=
  hrp.data.map (fun c => c.toNat >>> 5) ++ [0] ++ hrp.data.map (fun c => c.toNat &&& 31)

/-- The six-character bech32 checksum. -/
def createChecksum (hrp : String) (data : List Nat) : List Nat :=
  let pm := polymod (hrpExpand hrp ++ data ++ [0, 0, 0, 0, 0, 0]) ^^^ 1
  (List.range 6).map (fun i => (pm >>> (5 * (5 - i))) &&& 31)

/-- Regroup bytes into 5-bit values, big-endian (exact when the bit count is a
multiple of 5, as for 20-byte addresses). -/
def toBase32 (bytes : List Nat) : List Nat :=
  let n := bytes.foldl (fun acc b => (acc <<< 8) ||| b) 0
  let total := bytes.length * 8 / 5
  (List.range total).map (fun i => (n >>> (5 * (total - 1 - i))) &&& 31)

/-- bech32 encoding of a byte sequence under a human-readable prefix. -/
def encode (hrp : String) (bytes : List Nat) : String :=
  let data := toBase32 bytes
  let checksum := createChecksum hrp data
  hrp ++ "1" ++ String.mk ((data ++ checksum).map (fun v => charset.getD v 'q'))

end Ibc.Bech32

namespace Ibc.Transfer

/-- `cosmos_adr028_escrow_address` (`transfer/context.rs`, lines 55-66):
SHA-256 over the streaming updates `VERSION`, `[0]`, `"port/channel"`,
truncated to 20 bytes. -/
def cosmos_adr028_escrow_address (port_id : PortId) (channel_id : ChannelId) :
    List Nat :=
  let contents := port_id ++ "/" ++ channel_id
  let hasher := Sha256.Hasher.new
  let hasher := hasher.update (strBytes VERSION)
  let hasher := hasher.update [0]
  let hasher := hasher.update (strBytes contents)
  let hash := hasher.finalize
  hash.take 20

end Ibc.Transfer

namespace Ibc

/-- A concrete module whose version negotiation echoes the proposed or
counterparty version as its chosen one (the shape ICS-20 instantiates with the
constant "ics20-1"); used to exercise `channel_callback`. -/
def demoModule : Module Unit where
  onChanOpenInit := fun s _ _ _ _ _ v => .ok (s, ModuleExtras.empty, v)
  onChanOpenTry := fun s _ _ _ _ _ cpv => .ok (s, ModuleExtras.empty, cpv)
  onChanOpenAck := fun s _ _ _ => .ok (s, ModuleExtras.empty)
  onChanOpenConfirm := fun s _ _ => .ok (s, ModuleExtras.empty)
  onChanCloseInit := fun s _ _ => .ok (s, ModuleExtras.empty)
  onChanCloseConfirm := fun s _ _ => .ok (s, ModuleExtras.empty)

/-- A router binding every module id to `demoModule`. -/
def demoRouter : ModuleId → Option (Module Unit) := fun _ => some demoModule

/-- A concrete channel end as produced by the `ChannelOpenTry` dispatch, with
the not-yet-negotiated empty version. -/
def tryEnd0 : ChannelEnd :=
  { state := .TryOpen, ordering := .Unordered,
    remote := ⟨"transfer", some "channel-0"⟩,
    connection_hops := ["connection-0"], version := Version.new "" }

/-- A concrete `MsgChannelOpenTry` carrying counterparty version "ics20-1". -/
def tryMsg0 : MsgChannelOpenTry :=
  { port_id := "transfer", channel := tryEnd0, counterparty_version := Version.ics20 }

/-- A concrete `MsgChannelOpenInit`. -/
def initMsg0 : MsgChannelOpenInit :=
  { port_id := "transfer", channel := tryEnd0 }

/-- A concrete `MsgChannelOpenAck`. -/
def ackMsg0 : MsgChannelOpenAck :=
  { port_id := "transfer", channel_id := "channel-0",
    counterparty_channel_id := "channel-1", counterparty_version := Version.ics20 }

/-- The `ChannelResult` computed by `channel_dispatch` for `tryMsg0`. -/
def chanRes0 : ChannelResult :=
  { port_id := "transfer", channel_id := "channel-0",
    channel_id_state := .Generated, channel_end := tryEnd0 }

/-- `chanRes0` with the version rewritten to the module's chosen "ics20-1". -/
def chanResTryOut : ChannelResult :=
  { chanRes0 with channel_end := { tryEnd0 with version := Version.ics20 } }

/-- A concrete packet. -/
def packet0 : Packet :=
  { sequence := 1, source_port := "transfer", source_channel := "channel-0",
    destination_port := "transfer", destination_channel := "channel-1",
    data := [123], timeout_height := none, timeout_timestamp := 0 }

/-- A concrete `RecvPacket` message. -/
def recvMsg0 : PacketMsg := .recvPacket ⟨packet0, "signer"⟩

/-- A concrete routing context over `Nat` host state whose `packet_dispatch`
reports an unordered-recv replay (`Recv(NoOp)`); every store write bumps the
state so that writes are observable. -/
def ctx26 : Ics26Ctx Nat Unit Unit Unit Unit where
  clientMsgDispatcher := fun s _ => .ok (s, [], [], ())
  storeClientResult := fun s _ => .ok s
  connMsgDispatcher := fun s _ => .ok (s, [], [], ())
  storeConnectionResult := fun s _ => .ok s
  channelValidate := fun _ _ => .ok "transfer"
  channelDispatch := fun _ _ => .ok ([], chanRes0)
  channelCallback := fun s _ _ r => .ok (s, ModuleExtras.empty, r)
  storeChannelResult := fun s _ => .ok (s + 1)
  getModuleForPacketMsg := fun _ _ => .ok "transfer"
  packetDispatch := fun _ _ => .ok (HandlerOutputBuilder.new, .recv .noOp)
  packetCallback := fun s _ _ b => .ok (s + 1, b)
  storePacketResult := fun s _ => .ok (s + 1)

/-- `ctx26` with a failing `channel_validate`. -/
def ctx26valErr : Ics26Ctx Nat Unit Unit Unit Unit :=
  { ctx26 with channelValidate := fun _ _ => .error .routeNotFound }

/-- A deserializer that rejects every payload. -/
def deser0 : List Nat → Option Transfer.PacketData := fun _ => none

/-- A `process_recv_packet` that rejects every packet. -/
def proc0 : Transfer.PacketData → Except Transfer.Ics20Error (Nat → Except String Nat) :=
  fun _ => .error .packetDataDeserialization

/-- The error acknowledgement produced for undeserializable packet data. -/
def deserFailAck : Transfer.Ics20Ack :=
  .error (Transfer.ics20ErrorMessage Transfer.Ics20Error.packetDataDeserialization)

/-- A concrete packet-callback context over `Nat` state: writing an
acknowledgement commits it as a `Recv(WriteAck)` result and the store bumps
the state. -/
def pcb0 : PacketCbCtx Nat where
  writeAcknowledgementProcess := fun _ _ a => .ok (.recv (.writeAck a), [], [])
  storePacketResult := fun s _ => .ok (s + 1)

end Ibc

namespace Ibc

/-- Claim C5: for ICS-20 `on_chan_open_init` with an unordered channel on the
module's bound port, an empty proposed version yields the chosen version
"ics20-1", the proposed version "ics20-1" is accepted and returned unchanged,
and every other non-empty proposed version is rejected with an
`invalid_version` error. -/
theorem on_chan_open_init_version_negotiation
    (ctx : Transfer.Ics20Ctx) (hops : List ConnectionId) (cid : ChannelId)
    (cp : Counterparty) (p : PortId) (hport : ctx.getPort = .ok p) :
    Transfer.on_chan_open_init ctx .Unordered hops p cid cp (Version.new "") =
      .ok (ModuleExtras.empty, Version.ics20) ∧
    Transfer.on_chan_open_init ctx .Unordered hops p cid cp Version.ics20 =
      .ok (ModuleExtras.empty, Version.ics20) ∧
    ∀ v : Version, v.isEmpty = false → v ≠ Version.ics20 →
      Transfer.on_chan_open_init ctx .Unordered hops p cid cp v =
        .error (.invalidVersion v) := by
  refine ⟨?_, ?_, ?_⟩
  · simp [Transfer.on_chan_open_init, hport,
      show (Version.new "").isEmpty = true from rfl]
  · simp [Transfer.on_chan_open_init, hport]
  · intro v h1 h2
    simp [Transfer.on_chan_open_init, hport, h1, h2]

/-- Witness for C5: the bound port "transfer" with an unordered channel;
the empty proposed version is accepted as "ics20-1" and the unsupported
version "bad" is rejected. -/
theorem on_chan_open_init_version_negotiation_witness :
    Transfer.on_chan_open_init ⟨.ok "transfer"⟩ .Unordered [] "transfer" "channel-0"
      ⟨"transfer", some "channel-1"⟩ (Version.new "") =
        .ok (ModuleExtras.empty, Version.ics20) ∧
    Transfer.on_chan_open_init ⟨.ok "transfer"⟩ .Unordered [] "transfer" "channel-0"
      ⟨"transfer", some "channel-1"⟩ (Version.new "bad") =
        .error (.invalidVersion (Version.new "bad")) :=
  ⟨(on_chan_open_init_version_negotiation ⟨.ok "transfer"⟩ [] "channel-0"
      ⟨"transfer", some "channel-1"⟩ "transfer" rfl).1,
   (on_chan_open_init_version_negotiation ⟨.ok "transfer"⟩ [] "channel-0"
      ⟨"transfer", some "channel-1"⟩ "transfer" rfl).2.2 (Version.new "bad")
      (by decide) (by decide)⟩

/-- Claim C6: ICS-20 `on_chan_open_try` with an unordered channel errors
exactly when the counterparty version differs from "ics20-1"; on "ics20-1" it
succeeds with chosen version "ics20-1". -/
theorem on_chan_open_try_version_agreement
    (ctx : Transfer.Ics20Ctx) (hops : List ConnectionId) (p : PortId)
    (cid : ChannelId) (cp : Counterparty) :
    (∀ v : Version,
      isError (Transfer.on_chan_open_try ctx .Unordered hops p cid cp v) = true ↔
        v ≠ Version.ics20) ∧
    Transfer.on_chan_open_try ctx .Unordered hops p cid cp Version.ics20 =
      .ok (ModuleExtras.empty, Version.ics20) := by
  constructor
  · intro v
    by_cases h : v = Version.ics20 <;> simp [Transfer.on_chan_open_try, isError, h]
  · simp [Transfer.on_chan_open_try]

/-- Witness for C6: counterparty version "bad" is rejected. -/
theorem on_chan_open_try_version_agreement_witness :
    isError (Transfer.on_chan_open_try ⟨.ok "transfer"⟩ .Unordered [] "transfer"
      "channel-0" ⟨"transfer", some "channel-1"⟩ (Version.new "bad")) = true :=
  ((on_chan_open_try_version_agreement ⟨.ok "transfer"⟩ [] "transfer" "channel-0"
      ⟨"transfer", some "channel-1"⟩).1 (Version.new "bad")).mpr (by decide)

/-- Claim C7: with order = Ordered, ICS-20 `on_chan_open_init` and
`on_chan_open_try` both fail with `channel_not_unordered(order)`, regardless
of all other arguments. -/
theorem ordered_channels_rejected
    (ctx : Transfer.Ics20Ctx) (hops : List ConnectionId) (p : PortId)
    (cid : ChannelId) (cp : Counterparty) (v : Version) :
    Transfer.on_chan_open_init ctx .Ordered hops p cid cp v =
      .error (.channelNotUnordered .Ordered) ∧
    Transfer.on_chan_open_try ctx .Ordered hops p cid cp v =
      .error (.channelNotUnordered .Ordered) := by
  constructor <;> rfl

/-- Claim C8: ICS-20 `on_chan_close_init` always fails with
`cant_close_channel` and `on_chan_close_confirm` always succeeds with empty
`ModuleExtras`. -/
theorem close_hooks_fixed_behavior
    (ctx : Transfer.Ics20Ctx) (p : PortId) (cid : ChannelId) :
    Transfer.on_chan_close_init ctx p cid = .error .cantCloseChannel ∧
    Transfer.on_chan_close_confirm ctx p cid = .ok ModuleExtras.empty :=
  ⟨rfl, rfl⟩

/-- Claim C10: `channel_events` panics (modelled as `none`) exactly when the
counterparty channel id is missing and the message is not `ChannelOpenInit`;
only the `ChannelOpenInit` event can be built with an unknown counterparty
channel id. -/
theorem channel_events_counterparty_id_partiality
    (msg : ChannelMsg) (cid : ChannelId) (cp : Counterparty)
    (conn : ConnectionId) (v : Version) :
    channel_events msg cid cp conn v = none ↔
      (cp.channel_id = none ∧ msg.isOpenInit = false) := by
  obtain ⟨cpp, cpc⟩ := cp
  cases msg <;> cases cpc <;> simp [channel_events, ChannelMsg.isOpenInit]

/-- Witness for C10: an `OpenAck` with unknown counterparty channel id panics,
an `OpenInit` with the same counterparty does not. -/
theorem channel_events_counterparty_id_partiality_witness :
    channel_events (.channelOpenAck ackMsg0) "channel-0" ⟨"transfer", none⟩
      "connection-0" Version.ics20 = none :=
  (channel_events_counterparty_id_partiality (.channelOpenAck ackMsg0) "channel-0"
    ⟨"transfer", none⟩ "connection-0" Version.ics20).mpr ⟨rfl, rfl⟩

set_option maxRecDepth 100000 in
/-- Claim C4: `cosmos_adr028_escrow_address` is a pure function of the port and
channel ids equal to the first 20 bytes of
SHA-256("ics20-1" followed by a zero byte and "port/channel"), and for port
"transfer" and channel "channel-141" its bech32 encoding under the prefix
"cosmos" is the address `cosmos1x54ltnyg88k0ejmk8ytwrhd3ltm84xehrnlslf`. -/
theorem escrow_address_formula_and_vector :
    (∀ port_id channel_id : String,
      Transfer.cosmos_adr028_escrow_address port_id channel_id =
        (Sha256.sha256 (strBytes VERSION ++ 0 ::
          strBytes (port_id ++ "/" ++ channel_id))).take 20) ∧
    Bech32.encode "cosmos" (Transfer.cosmos_adr028_escrow_address "transfer" "channel-141") =
      "cosmos1x54ltnyg88k0ejmk8ytwrhd3ltm84xehrnlslf" := by
  constructor
  · intro port_id channel_id
    simp [Transfer.cosmos_adr028_escrow_address, Sha256.Hasher.new,
      Sha256.Hasher.update, Sha256.Hasher.finalize]
  · decide

end Ibc

namespace Ibc

/-- Counterexample to claim C3 as stated: on a `ChannelOpenTry` message,
`channel_callback` rewrites `result.channel_end.version` to the module's
chosen version (here from the empty version computed by `channel_dispatch` to
"ics20-1"), so `ChannelOpenTry` does not leave the version unchanged. -/
theorem channel_callback_rewrites_version_on_try :
    channel_callback demoRouter () "transfer" (.channelOpenTry tryMsg0) chanRes0 =
      .ok ((), ModuleExtras.empty, chanResTryOut) ∧
    chanResTryOut.channel_end.version ≠ chanRes0.channel_end.version :=
  ⟨rfl, by decide⟩

/-- Claim C3 (amended): `channel_callback` leaves `result.channel_end.version`
unchanged on `ChannelOpenAck` and `ChannelOpenConfirm` (the module only
validates there), while on both `ChannelOpenInit` and `ChannelOpenTry` it
replaces the version with the version chosen by the module's hook. -/
theorem channel_callback_version_discipline {σ : Type}
    (router : ModuleId → Option (Module σ)) (s : σ) (mid : ModuleId)
    (msg : ChannelMsg) (res : ChannelResult) (s2 : σ) (ex : ModuleExtras)
    (out : ChannelResult)
    (h : channel_callback router s mid msg res = .ok (s2, ex, out)) :
    (∀ m, msg = .channelOpenAck m → out.channel_end.version = res.channel_end.version) ∧
    (∀ m, msg = .channelOpenConfirm m →
      out.channel_end.version = res.channel_end.version) ∧
    (∀ m, msg = .channelOpenTry m → ∃ cb, router mid = some cb ∧
      cb.onChanOpenTry s m.channel.ordering m.channel.connection_hops m.port_id
        res.channel_id m.channel.counterparty m.counterparty_version =
        .ok (s2, ex, out.channel_end.version)) ∧
    (∀ m, msg = .channelOpenInit m → ∃ cb, router mid = some cb ∧
      cb.onChanOpenInit s m.channel.ordering m.channel.connection_hops m.port_id
        res.channel_id m.channel.counterparty m.channel.version =
        .ok (s2, ex, out.channel_end.version)) := by
  refine ⟨?_, ?_, ?_, ?_⟩ <;> rintro m rfl <;> unfold channel_callback at h
  · cases hr : router mid with
    | none => simp only [hr] at h; exact Except.noConfusion h
    | some cb =>
      simp only [hr] at h
      cases hcb : cb.onChanOpenAck s m.port_id res.channel_id m.counterparty_version with
      | error e => simp only [hcb] at h; exact Except.noConfusion h
      | ok v =>
        obtain ⟨s3, ex3⟩ := v
        simp only [hcb] at h
        obtain ⟨-, -, h3⟩ := by simpa using h
        rw [← h3]
  · cases hr : router mid with
    | none => simp only [hr] at h; exact Except.noConfusion h
    | some cb =>
      simp only [hr] at h
      cases hcb : cb.onChanOpenConfirm s m.port_id res.channel_id with
      | error e => simp only [hcb] at h; exact Except.noConfusion h
      | ok v =>
        obtain ⟨s3, ex3⟩ := v
        simp only [hcb] at h
        obtain ⟨-, -, h3⟩ := by simpa using h
        rw [← h3]
  · cases hr : router mid with
    | none => simp only [hr] at h; exact Except.noConfusion h
    | some cb =>
      simp only [hr] at h
      cases hcb : cb.onChanOpenTry s m.channel.ordering m.channel.connection_hops
        m.port_id res.channel_id m.channel.counterparty m.counterparty_version with
      | error e => simp only [hcb] at h; exact Except.noConfusion h
      | ok v =>
        obtain ⟨s3, ex3, v3⟩ := v
        simp only [hcb] at h
        obtain ⟨h1, h2, h3⟩ := by simpa using h
        refine ⟨cb, rfl, ?_⟩
        rw [← h3]
        simpa [h1, h2] using hcb
  · cases hr : router mid with
    | none => simp only [hr] at h; exact Except.noConfusion h
    | some cb =>
      simp only [hr] at h
      cases hcb : cb.onChanOpenInit s m.channel.ordering m.channel.connection_hops
        m.port_id res.channel_id m.channel.counterparty m.channel.version with
      | error e => simp only [hcb] at h; exact Except.noConfusion h
      | ok v =>
        obtain ⟨s3, ex3, v3⟩ := v
        simp only [hcb] at h
        obtain ⟨h1, h2, h3⟩ := by simpa using h
        refine ⟨cb, rfl, ?_⟩
        rw [← h3]
        simpa [h1, h2] using hcb

/-- Witness for C3 (amended): on a concrete `ChannelOpenAck` the callback
succeeds and the version is untouched. -/
theorem channel_callback_version_discipline_witness :
    channel_callback demoRouter () "transfer" (.channelOpenAck ackMsg0) chanRes0 =
      .ok ((), ModuleExtras.empty, chanRes0) ∧
    chanRes0.channel_end.version = chanRes0.channel_end.version :=
  ⟨rfl, (channel_callback_version_discipline demoRouter () "transfer"
    (.channelOpenAck ackMsg0) chanRes0 () ModuleExtras.empty chanRes0 rfl).1
    ackMsg0 rfl⟩

end Ibc

namespace Ibc

/-- Claim C1: when `packet_dispatch` yields `Recv(NoOp)` for an
`Ics4PacketMsg` envelope, `dispatch` returns `Ok` with the `packet_dispatch`
output alone and the host state untouched, for every module packet callback
and every `store_packet_result` implementation — so the callback is never
invoked, no acknowledgement is written, and `store_packet_result` is not
called. -/
theorem dispatch_recv_noop_short_circuits {σ CM CN CR NR : Type}
    (C : Ics26Ctx σ CM CN CR NR) (s : σ) (m : PacketMsg) (mid : ModuleId)
    (b : HandlerOutputBuilder)
    (hmod : C.getModuleForPacketMsg s m = .ok mid)
    (hdisp : C.packetDispatch s m = .ok (b, .recv .noOp)) :
    ∀ (cb : σ → ModuleId → PacketMsg → HandlerOutputBuilder →
        Except ChanError (σ × HandlerOutputBuilder))
      (st : σ → PacketResult → Except ChanError σ),
      dispatch { C with packetCallback := cb, storePacketResult := st } s
        (.ics4PacketMsg m) = .ok s b := by
  intro cb st
  unfold dispatch
  simp only [hmod, hdisp]

/-- Witness for C1: a concrete context whose `packet_dispatch` reports a
recv replay; `dispatch` succeeds with the dispatcher's own output and the
state counter is not bumped by any store. -/
theorem dispatch_recv_noop_short_circuits_witness :
    dispatch ctx26 0 (.ics4PacketMsg recvMsg0) = .ok 0 HandlerOutputBuilder.new :=
  dispatch_recv_noop_short_circuits ctx26 0 recvMsg0 "transfer"
    HandlerOutputBuilder.new rfl rfl ctx26.packetCallback ctx26.storePacketResult

/-- Claim C2: in the `Ics4ChannelMsg` arm of `dispatch`,
`store_channel_result` runs only after `channel_validate`, `channel_dispatch`
and `channel_callback` have all succeeded: each failure propagates as the
returned error for every store implementation (so no channel result is
stored), and on success the store receives the callback-refined result. -/
theorem dispatch_channel_store_only_after_success {σ CM CN CR NR : Type}
    (C : Ics26Ctx σ CM CN CR NR) (s : σ) (m : ChannelMsg) :
    (∀ e (st : σ → ChannelResult → Except ChanError σ),
      C.channelValidate s m = .error e →
      dispatch { C with storeChannelResult := st } s (.ics4ChannelMsg m) =
        .error (.ics04Channel e)) ∧
    (∀ mid e (st : σ → ChannelResult → Except ChanError σ),
      C.channelValidate s m = .ok mid →
      C.channelDispatch s m = .error e →
      dispatch { C with storeChannelResult := st } s (.ics4ChannelMsg m) =
        .error (.ics04Channel e)) ∧
    (∀ mid log res e (st : σ → ChannelResult → Except ChanError σ),
      C.channelValidate s m = .ok mid →
      C.channelDispatch s m = .ok (log, res) →
      C.channelCallback s mid m res = .error e →
      dispatch { C with storeChannelResult := st } s (.ics4ChannelMsg m) =
        .error (.ics04Channel e)) ∧
    (∀ mid log res s2 ex out conn rest evs,
      C.channelValidate s m = .ok mid →
      C.channelDispatch s m = .ok (log, res) →
      C.channelCallback s mid m res = .ok (s2, ex, out) →
      out.channel_end.connection_hops = conn :: rest →
      channel_events m out.channel_id out.channel_end.counterparty conn
        out.channel_end.version = some evs →
      dispatch C s (.ics4ChannelMsg m) =
        match C.storeChannelResult s2 out with
        | .error e => DispatchResult.error (.ics04Channel e)
        | .ok s3 =>
          DispatchResult.ok s3
            ((((HandlerOutputBuilder.new.withEvents evs).withEvents
              (ex.events.map IbcEvent.appModule)).withLog log).withLog ex.log)) := by
  refine ⟨?_, ?_, ?_, ?_⟩
  · intro e st hv
    unfold dispatch
    simp only [hv]
  · intro mid e st hv hd
    unfold dispatch
    simp only [hv, hd]
  · intro mid log res e st hv hd hc
    unfold dispatch
    simp only [hv, hd, hc]
  · intro mid log res s2 ex out conn rest evs hv hd hc hhops hev
    unfold dispatch
    simp only [hv, hd, hc, hhops, hev]

/-- Witness for C2: with a failing `channel_validate`, `dispatch` returns
exactly that error (for the context's own store function). -/
theorem dispatch_channel_store_only_after_success_witness :
    dispatch ctx26valErr 0 (.ics4ChannelMsg (.channelOpenInit initMsg0)) =
      .error (.ics04Channel .routeNotFound) :=
  (dispatch_channel_store_only_after_success ctx26valErr 0
    (.channelOpenInit initMsg0)).1 .routeNotFound
    ctx26valErr.storeChannelResult rfl

/-- Claim C9: ICS-20 `on_recv_packet` is total toward the router: on a packet
whose data does not deserialize it returns `Failed` with the
deserialization-error acknowledgement, on a `process_recv_packet` failure it
returns `Failed` with the converted error acknowledgement, and whenever it
returns `Failed` the router's recv callback writes that acknowledgement via
`write_acknowledgement::process` and succeeds when the write and store
succeed — so the `RecvPacket` message itself still succeeds. -/
theorem on_recv_packet_total_failed_acks_written {σ : Type}
    (deser : List Nat → Option Transfer.PacketData)
    (proc : Transfer.PacketData → Except Transfer.Ics20Error (σ → Except String σ))
    (packet : Packet) :
    (deser packet.data = none →
      (Transfer.on_recv_packet deser proc packet).1 =
        OnRecvPacketAck.failed
          (Transfer.Ics20Ack.error (Transfer.ics20ErrorMessage
            Transfer.Ics20Error.packetDataDeserialization))) ∧
    (∀ d e, deser packet.data = some d → proc d = .error e →
      (Transfer.on_recv_packet deser proc packet).1 =
        OnRecvPacketAck.failed (Transfer.Ics20Ack.fromError e)) ∧
    (∀ (C : PacketCbCtx σ) (s : σ) (b : HandlerOutputBuilder) ack res log evs s2,
      (Transfer.on_recv_packet deser proc packet).1 = OnRecvPacketAck.failed ack →
      C.writeAcknowledgementProcess s packet ack.toBytes = .ok (res, log, evs) →
      C.storePacketResult s res = .ok s2 →
      do_packet_callback_recv C s packet
        (Transfer.on_recv_packet deser proc packet).1 b =
        .ok (s2, (b.withLog log).withEvents evs)) := by
  refine ⟨?_, ?_, ?_⟩
  · intro hde
    unfold Transfer.on_recv_packet
    simp only [hde]
  · intro d e hde hpr
    unfold Transfer.on_recv_packet
    simp only [hde, hpr]
  · intro C s b ack res log evs s2 hfail hw hst
    rw [hfail]
    unfold do_packet_callback_recv process_write_ack
    simp only [hw, hst]

/-- Witness for C9: with a deserializer that rejects the payload, the failed
acknowledgement is written and the recv callback succeeds, bumping the store
state. -/
theorem on_recv_packet_total_failed_acks_written_witness :
    do_packet_callback_recv pcb0 0 packet0
      (Transfer.on_recv_packet deser0 proc0 packet0).1 HandlerOutputBuilder.new =
      .ok (1, HandlerOutputBuilder.new) :=
  (on_recv_packet_total_failed_acks_written deser0 proc0 packet0).2.2 pcb0 0
    HandlerOutputBuilder.new deserFailAck
    (.recv (.writeAck deserFailAck.toBytes)) [] [] 1 rfl rfl rfl

end Ibc
